import Mathlib

set_option linter.unusedVariables false

/-! Shallow embedding of the Job model (src/models/jobs.js), the
partial-update builder it calls (helpers/sql.js, absent from src and
therefore modelled from the spec), and the admin-or-current-user
authorization gate (middleware/auth.js, absent from src and modelled from
the spec), together with the database fixture of
src/routes/_testCommon.js. -/

/-- A SQL value as it travels through parameter lists and rows: NULL, an
integer, or a text value (numeric columns such as equity surface as text
in the caller-facing rows, as the fixtures show). -/
inductive Value where
  | null : Value
  | int : Int → Value
  | str : String → Value
deriving DecidableEq, Repr

/-- Errors surfaced by the model layer: the taxonomy errors BadRequest and
NotFound, a storage-engine rejection of a malformed query, and a
JavaScript ReferenceError raised when an undefined identifier is read. -/
inductive JobError where
  | badRequest : String → JobError
  | notFound : String → JobError
  | sqlError : String → JobError
  | referenceError : String → JobError
deriving DecidableEq, Repr

/-- A row of the companies table, as created by the fixture. -/
structure Company where
  handle : String
  name : String
  description : String
  numEmployees : Option Int
  logoUrl : Option String
deriving DecidableEq, Repr

/-- A row of the jobs table.  Every field is a Value so that a partial
update can assign whatever the parameter list carries, as the storage
engine would. -/
structure JobRow where
  id : Value
  title : Value
  salary : Value
  equity : Value
  company_handle : Value
deriving DecidableEq, Repr

/-- The storage state the model operates on. -/
structure DBState where
  companies : List Company
  jobs : List JobRow
  nextId : Int
deriving DecidableEq, Repr

/-- Columns of the jobs table (the schema implied by the queries and the
fixtures: id, title, salary, equity, company_handle). -/
def jobsColumns : List String :=
  ["id", "title", "salary", "equity", "company_handle"]

/-- Modelled from the spec: helpers/sql.js is not under src.  Per the
spec, each key of the update mapping is translated through the alias
mapping if present and unmapped keys pass through unchanged. -/
def translateCol (jsToSql : List (String × String)) (k : String) : String :=
  (jsToSql.lookup k).getD k

/-- Modelled from the spec: the partial-update builder sqlForPartialUpdate
of helpers/sql.js is not under src.  Per the spec it rejects an empty
mapping with BadRequest ("no data"); otherwise it emits one
column-equals-placeholder fragment per key, placeholders numbered 1..N in
iteration order, together with the values in the same order, untouched
(no quoting of column names is performed). -/
def sqlForPartialUpdate (data : List (String × Value))
    (jsToSql : List (String × String)) :
    Except JobError (List String × List Value) :=
  if data.isEmpty then Except.error (JobError.badRequest "no data")
  else Except.ok
    (data.enum.map (fun p => translateCol jsToSql p.2.1 ++ "=$" ++ toString (p.1 + 1)),
     data.map Prod.snd)

/-- The UPDATE statement Job.update builds (src/models/jobs.js lines
115-125): SET targets as the builder emits them, WHERE placeholder index
values.length + 1 (line 117), parameter list the builder values with the
id appended last (line 125), and the RETURNING list of line 124. -/
structure UpdateQuery where
  setTargets : List String
  whereIdx : Nat
  params : List Value
  returningCols : List String
deriving DecidableEq, Repr

/-- RETURNING list of Job.update (line 124): company is not a column of
jobs (the column is company_handle), so the storage engine rejects every
such UPDATE statement. -/
def updateReturningCols : List String :=
  ["id", "title", "salary", "equity", "company"]

/-- The query Job.update assembles from the builder output (lines
116-125); update passes no alias mapping, so SET targets are the data
keys unchanged. -/
def Job.updateQuery (data : List (String × Value)) (qid : Int) :
    Except JobError UpdateQuery :=
  match sqlForPartialUpdate data [] with
  | Except.error e => Except.error e
  | Except.ok (_, values) =>
      Except.ok
        { setTargets := data.map (fun p => translateCol [] p.1),
          whereIdx := values.length + 1,
          params := values ++ [Value.int qid],
          returningCols := updateReturningCols }

/-- Effect of one SET assignment on a row of jobs. -/
def applyAssign (j : JobRow) (kv : String × Value) : JobRow :=
  if kv.1 = "id" then { j with id := kv.2 }
  else if kv.1 = "title" then { j with title := kv.2 }
  else if kv.1 = "salary" then { j with salary := kv.2 }
  else if kv.1 = "equity" then { j with equity := kv.2 }
  else if kv.1 = "company_handle" then { j with company_handle := kv.2 }
  else j

/-- Embedding of Job.update (lines 115-131).  The builder runs first, so
an empty mapping fails with BadRequest before any query.  The storage
engine then analyses the statement: every SET target and every RETURNING
column must resolve to a column of jobs, otherwise the statement is
rejected outright; this happens before row matching, so it preempts the
NotFound check of line 128.  Only a valid statement updates the matched
row and returns it. -/
def Job.update (db : DBState) (qid : Int) (data : List (String × Value)) :
    Except JobError (DBState × JobRow) :=
  match Job.updateQuery data qid with
  | Except.error e => Except.error e
  | Except.ok q =>
      if (q.setTargets ++ q.returningCols).all (fun c => jobsColumns.contains c) then
        match db.jobs.find? (fun j => decide (j.id = Value.int qid)) with
        | none => Except.error (JobError.notFound ("No job: " ++ toString qid))
        | some j =>
            let j2 := data.foldl applyAssign j
            Except.ok
              ({ db with
                  jobs := db.jobs.map (fun r =>
                    if r.id = Value.int qid then j2 else r) }, j2)
      else Except.error (JobError.sqlError "column does not exist")

/-- The object Job.create destructures from its argument (line 19).  Note
the function destructures company_handle while its callers pass
companyHandle, but no call gets far enough for that to matter. -/
structure CreateInput where
  title : Value
  salary : Value
  equity : Value
  company_handle : Value
deriving DecidableEq, Repr

/-- Whether the duplicate-check query of Job.create parses.  Its WHERE
clause (line 24) separates the four comparisons with commas where SQL
requires AND, so the storage engine rejects the query with a syntax
error. -/
def createDuplicateCheckParses : Bool := false

/-- Whether the INSERT of Job.create parses.  Its RETURNING list (line
36) ends in a quoted alias whose closing double quote is missing, an
unterminated quoted identifier. -/
def createInsertParses : Bool := false

/-- Embedding of Job.create (lines 19-42).  There is no check that the
referenced company exists.  The duplicate-check query is malformed, so
every call fails there; were it valid, a detected duplicate would raise a
ReferenceError (the BadRequest message of line 29 interpolates the
undefined identifier id), and the INSERT itself is also malformed. -/
def Job.create (db : DBState) (input : CreateInput) :
    Except JobError (DBState × JobRow) :=
  if createDuplicateCheckParses then
    if db.jobs.any (fun j =>
        decide (j.title = input.title) && decide (j.salary = input.salary) &&
        decide (j.equity = input.equity) &&
        decide (j.company_handle = input.company_handle)) then
      Except.error (JobError.referenceError "id")
    else if createInsertParses then
      let row : JobRow :=
        { id := Value.int db.nextId, title := input.title,
          salary := input.salary, equity := input.equity,
          company_handle := input.company_handle }
      Except.ok ({ db with jobs := db.jobs ++ [row], nextId := db.nextId + 1 }, row)
    else Except.error (JobError.sqlError "unterminated quoted identifier")
  else Except.error (JobError.sqlError "syntax error at or near comma")

/-- The filter object the findAll callers pass (the model tests pass
title, minSalary and hasEquity). -/
structure FilterArgs where
  title : Option String
  minSalary : Option Int
  hasEquity : Option Bool
deriving DecidableEq, Repr

/-- Output aliases of the findAll SELECT list (line 53). -/
def findAllSelectAliases : List String :=
  ["id", "title", "salary", "equity", "companyHandle"]

/-- The ORDER BY key of findAll (line 55). -/
def findAllOrderBy : String := "name"

/-- Embedding of Job.findAll (lines 50-59).  The source declares no
parameter, so a filter object passed by the caller is ignored (JavaScript
drops extra arguments) and no WHERE clause is built.  The ORDER BY key
must resolve to a jobs column or an output alias of the SELECT list; name
resolves to neither, so the storage engine rejects the query, and the
branch that would return the rows is unreachable. -/
def Job.findAll (db : DBState) (filter : FilterArgs) :
    Except JobError (List JobRow) :=
  if (jobsColumns ++ findAllSelectAliases).contains findAllOrderBy then
    Except.ok db.jobs
  else Except.error (JobError.sqlError "column name does not exist")

/-- The caller-facing company sub-record Job.get is documented to nest
under company. -/
structure CompanyPublic where
  handle : Value
  name : String
  description : String
  numEmployees : Option Int
  logoUrl : Option String
deriving DecidableEq, Repr

/-- The caller-facing shape Job.get is documented to return. -/
structure GetResult where
  id : Value
  title : Value
  salary : Value
  equity : Value
  company : CompanyPublic
deriving DecidableEq, Repr

/-- The joined row of the Job.get query (lines 73-83): the job with the
given id joined to the company its company_handle references. -/
def Job.getJoinRow (db : DBState) (qid : Int) : Option (JobRow × Company) :=
  match db.jobs.find? (fun j => decide (j.id = Value.int qid)) with
  | none => none
  | some j =>
      (db.companies.find? (fun c =>
        decide (j.company_handle = Value.str c.handle))).map (fun c => (j, c))

/-- Embedding of Job.get (lines 72-102).  Lines 73 and 85 declare the
constant job twice in one scope, a JavaScript SyntaxError that prevents
the module from loading at all; reading the body as if execution reached
it, the not-found branch (line 87) interpolates the undefined identifier
handle into its message and so raises a ReferenceError instead of
NotFoundError, and the success branch (lines 89-101) reads the undefined
identifiers title, salary, equity, companyHandle, name, description,
numEmployees and logoUrl as computed property keys, raising a
ReferenceError at the first of them.  No GetResult is ever produced. -/
def Job.get (db : DBState) (qid : Int) : Except JobError GetResult :=
  match Job.getJoinRow db qid with
  | none => Except.error (JobError.referenceError "handle")
  | some _ => Except.error (JobError.referenceError "title")

/-- Embedding of Job.remove (lines 138-150): DELETE the rows whose id
matches, RETURNING id; if no row came back, NotFoundError naming the id;
no return value beyond success. -/
def Job.remove (db : DBState) (qid : Int) : Except JobError DBState :=
  if db.jobs.any (fun j => decide (j.id = Value.int qid)) then
    Except.ok
      { db with jobs := db.jobs.filter (fun j => !decide (j.id = Value.int qid)) }
  else Except.error (JobError.notFound ("No job: " ++ toString qid))

/-- The authorization gate rejects with Unauthorized. -/
inductive AuthError where
  | unauthorized : AuthError
deriving DecidableEq, Repr

/-- The verified identity token verification attaches to a request. -/
structure Identity where
  username : String
  isAdmin : Bool
deriving DecidableEq, Repr

/-- Modelled from the spec: middleware/auth.js (the authorization gate) is
not under src; src/routes/users.js mounts ensureAdminOrCurrent in front of
each per-user route.  Per the spec the gate requires a verified identity
and (the admin flag, or the identity username equal to the username in
the addressed resource path); otherwise Unauthorized. -/
def ensureAdminOrCurrent (ident : Option Identity) (pathUsername : String) :
    Except AuthError Unit :=
  match ident with
  | none => Except.error AuthError.unauthorized
  | some u =>
      if u.isAdmin = true ∨ u.username = pathUsername then Except.ok ()
      else Except.error AuthError.unauthorized

/-- A route guarded by the gate, as mounted in src/routes/users.js: the
gate runs strictly before the handler and a rejection short-circuits, so
the handler never contributes to the outcome of a rejected request. -/
def guardedRoute {α : Type} (ident : Option Identity) (pathUsername : String)
    (handler : Except AuthError α) : Except AuthError α :=
  match ensureAdminOrCurrent ident pathUsername with
  | Except.error e => Except.error e
  | Except.ok _ => handler

/-- First company of the src/routes/_testCommon.js fixture. -/
def company1 : Company :=
  { handle := "c1", name := "C1", description := "Desc1",
    numEmployees := some 1, logoUrl := some "http://c1.img" }

/-- Second company of the fixture. -/
def company2 : Company :=
  { handle := "c2", name := "C2", description := "Desc2",
    numEmployees := some 2, logoUrl := some "http://c2.img" }

/-- Third company of the fixture. -/
def company3 : Company :=
  { handle := "c3", name := "C3", description := "Desc3",
    numEmployees := some 3, logoUrl := some "http://c3.img" }

/-- First job of the fixture (ids restart at 1). -/
def jobRow1 : JobRow :=
  { id := Value.int 1, title := Value.str "t1", salary := Value.int 5,
    equity := Value.str "0.2", company_handle := Value.str "c1" }

/-- Second job of the fixture. -/
def jobRow2 : JobRow :=
  { id := Value.int 2, title := Value.str "t2", salary := Value.int 10,
    equity := Value.str "0.4", company_handle := Value.str "c2" }

/-- Third job of the fixture. -/
def jobRow3 : JobRow :=
  { id := Value.int 3, title := Value.str "t3", salary := Value.int 15,
    equity := Value.str "0.6", company_handle := Value.str "c3" }

/-- The database state the fixture of src/routes/_testCommon.js builds. -/
def fixtureDB : DBState :=
  { companies := [company1, company2, company3],
    jobs := [jobRow1, jobRow2, jobRow3], nextId := 4 }

/-- The fixture state after deleting the job with id 1. -/
def fixtureAfterRemove1 : DBState :=
  { companies := [company1, company2, company3],
    jobs := [jobRow2, jobRow3], nextId := 4 }

/-- The update payload of the model tests. -/
def updateData : List (String × Value) :=
  [("title", Value.str "New Title"), ("salary", Value.int 1111),
   ("equity", Value.str "0.99"), ("companyHandle", Value.str "c2")]

/-- The null-clearing update payload of the model tests. -/
def updateDataSetNulls : List (String × Value) :=
  [("title", Value.str "New Title"), ("salary", Value.null),
   ("equity", Value.null), ("companyHandle", Value.str "c2")]

/-- Index lemma for the builder output: the i-th mapped fragment of an
enumeration starting at n is the fragment function applied at index n + i
and the i-th element. -/
theorem enumFrom_map_getD (f : Nat × (String × Value) → String)
    (l : List (String × Value)) :
    ∀ n i, i < l.length →
      ((l.enumFrom n).map f).getD i "" = f (n + i, l.getD i ("", Value.null)) := by
  induction l with
  | nil => intro n i hi; simp at hi
  | cons a t ih =>
      intro n i hi
      cases i with
      | zero => simp only [Nat.add_zero]; rfl
      | succ j =>
          have hj : j < t.length := by simpa using hi
          have harith : n + (j + 1) = (n + 1) + j := by omega
          calc ((List.enumFrom n (a :: t)).map f).getD (j + 1) ""
              = ((List.enumFrom (n + 1) t).map f).getD j "" := rfl
            _ = f ((n + 1) + j, t.getD j ("", Value.null)) := ih (n + 1) j hj
            _ = f (n + (j + 1), (a :: t).getD (j + 1) ("", Value.null)) := by
                rw [harith]; rfl

/-- C1: for every non-empty partial-update mapping, the builder returns as
many fragments as the mapping has keys and a values list of the same
length, with the i-th fragment being the i-th key followed by a
placeholder numbered i + 1 (so placeholders run 1..N in iteration order),
and the query Job.update assembles places the identifying key as the
final parameter under the WHERE placeholder index values.length + 1. -/
theorem builder_placeholders_and_where_index
    (data : List (String × Value)) (qid : Int) (h : data ≠ []) :
    ∃ frags values q,
      sqlForPartialUpdate data [] = Except.ok (frags, values) ∧
      frags.length = data.length ∧
      values = data.map Prod.snd ∧
      (∀ i, i < data.length →
        frags.getD i "" = (data.getD i ("", Value.null)).1 ++ "=$" ++ toString (i + 1)) ∧
      Job.updateQuery data qid = Except.ok q ∧
      q.whereIdx = values.length + 1 ∧
      q.params = values ++ [Value.int qid] := by
  have hne : data.isEmpty = false := by
    cases data with
    | nil => cases h rfl
    | cons a t => rfl
  have hb : sqlForPartialUpdate data [] =
      Except.ok
        (data.enum.map (fun p => translateCol [] p.2.1 ++ "=$" ++ toString (p.1 + 1)),
         data.map Prod.snd) := by
    simp [sqlForPartialUpdate, hne]
  have hq : Job.updateQuery data qid =
      Except.ok
        { setTargets := data.map (fun p => translateCol [] p.1),
          whereIdx := (data.map Prod.snd).length + 1,
          params := data.map Prod.snd ++ [Value.int qid],
          returningCols := updateReturningCols } := by
    unfold Job.updateQuery
    rw [hb]
  refine ⟨_, _, _, hb, ?_, rfl, ?_, hq, rfl, rfl⟩
  · simp
  · intro i hi
    have he : data.enum = data.enumFrom 0 := rfl
    rw [he, enumFrom_map_getD _ data 0 i hi]
    simp [translateCol]

/-- Witness for the builder theorem at the one-field mapping title to x
and identifying key 7. -/
theorem builder_placeholders_and_where_index_witness :
    ∃ frags values q,
      sqlForPartialUpdate [("title", Value.str "x")] [] = Except.ok (frags, values) ∧
      frags.length = ([("title", Value.str "x")] : List (String × Value)).length ∧
      values = ([("title", Value.str "x")] : List (String × Value)).map Prod.snd ∧
      (∀ i, i < ([("title", Value.str "x")] : List (String × Value)).length →
        frags.getD i "" =
          (([("title", Value.str "x")] : List (String × Value)).getD i
            ("", Value.null)).1 ++ "=$" ++ toString (i + 1)) ∧
      Job.updateQuery [("title", Value.str "x")] 7 = Except.ok q ∧
      q.whereIdx = values.length + 1 ∧
      q.params = values ++ [Value.int 7] :=
  builder_placeholders_and_where_index [("title", Value.str "x")] 7 (by decide)

/-- C2: refuted on the code.  The claim says findAll applies the filter
predicates conjunctively, so the filter title 2 with minSalary 12 over
the fixture should yield the empty list; the embedded findAll ignores its
filter (the source declares no parameter and builds no WHERE clause) and
its query is rejected by the storage engine because the ORDER BY key name
is not a column of jobs. -/
theorem findAll_filter_not_applied :
    Job.findAll fixtureDB { title := some "2", minSalary := some 12, hasEquity := none } =
      Except.error (JobError.sqlError "column name does not exist") := rfl

/-- C3: refuted on the code.  The claim says create fails with NotFound
when the referenced company does not exist; the embedded create contains
no company-existence check and fails for every input with a storage
syntax error from its malformed duplicate-check query (no row is
persisted, but not for the claimed reason). -/
theorem create_missing_company_storage_error :
    Job.create fixtureDB
      { title := Value.str "t4", salary := Value.int 20,
        equity := Value.str "0.8", company_handle := Value.str "nonexistentCompany" } =
      Except.error (JobError.sqlError "syntax error at or near comma") := rfl

/-- C4: refuted on the code.  The claim says an unfiltered findAll returns
every job row in deterministic id order; the embedded findAll fails with
a storage error because its ORDER BY key name resolves to no column of
jobs and no output alias. -/
theorem findAll_unfiltered_storage_error :
    Job.findAll fixtureDB { title := none, minSalary := none, hasEquity := none } =
      Except.error (JobError.sqlError "column name does not exist") := rfl

/-- C5: refuted on the code.  The claim says get returns the job with the
owning company nested under company, and NotFound naming the key when no
row matches; the embedded get raises a ReferenceError on both paths (the
success path reads the undefined identifier title, the not-found path
interpolates the undefined identifier handle) and never produces either
outcome the claim describes. -/
theorem get_raises_reference_error :
    Job.get fixtureDB 1 = Except.error (JobError.referenceError "title") ∧
    Job.get fixtureDB (-1) = Except.error (JobError.referenceError "handle") :=
  ⟨rfl, rfl⟩

/-- C6: partially refuted on the code.  Empty data does fail with
BadRequest propagated from the builder before any query, as claimed; but
for a non-empty update of a nonexistent key the claim says NotFound,
while the embedded update fails with a storage error because the UPDATE
statement names columns jobs does not have (companyHandle in SET, company
in RETURNING), which preempts row matching. -/
theorem update_empty_and_missing_key :
    Job.update fixtureDB 1 [] = Except.error (JobError.badRequest "no data") ∧
    Job.update fixtureDB (-1) updateData =
      Except.error (JobError.sqlError "column does not exist") :=
  ⟨rfl, rfl⟩

/-- C7: refuted on the code.  The claim says fields given as null are set
to NULL and the update succeeds on the remaining fields; the embedded
update fails with a storage error for the null-clearing test payload and
even for a single well-formed field, because the RETURNING list always
names the nonexistent column company, so no field is ever set. -/
theorem update_nulls_not_cleared :
    Job.update fixtureDB 1 updateDataSetNulls =
      Except.error (JobError.sqlError "column does not exist") ∧
    Job.update fixtureDB 1 [("salary", Value.null)] =
      Except.error (JobError.sqlError "column does not exist") :=
  ⟨rfl, rfl⟩

/-- C8: partially refuted on the code.  remove behaves as claimed: a
missing key fails with NotFound naming it, and removing id 1 deletes
exactly that row and returns nothing else; but the subsequent get on the
removed key raises a ReferenceError (from the undefined identifier handle
in its not-found message), not the NotFound the claim states. -/
theorem remove_then_get_reference_error :
    Job.remove fixtureDB (-1) = Except.error (JobError.notFound "No job: -1") ∧
    Job.remove fixtureDB 1 = Except.ok fixtureAfterRemove1 ∧
    (fixtureAfterRemove1.jobs.all fun j => !decide (j.id = Value.int 1)) = true ∧
    Job.get fixtureAfterRemove1 1 = Except.error (JobError.referenceError "handle") :=
  ⟨rfl, rfl, rfl, rfl⟩

/-- C9: refuted on the code.  The claim says a duplicate create fails with
BadRequest identifying the duplicate; the embedded create fails with a
storage syntax error from its malformed duplicate-check query even when
the input duplicates the existing job t1 exactly (and, were the query
valid, the BadRequest throw itself reads the undefined identifier id). -/
theorem create_duplicate_storage_error :
    Job.create fixtureDB
      { title := Value.str "t1", salary := Value.int 5,
        equity := Value.str "0.2", company_handle := Value.str "c1" } =
      Except.error (JobError.sqlError "syntax error at or near comma") := rfl

/-- C10: the gate admits a verified admin identity for any path username
and any verified identity for its own username; every other request,
including one with no verified identity, is rejected with Unauthorized,
and on a rejected request the guarded route never lets the handler
contribute to the outcome. -/
theorem adminOrCurrent_gate (u : Identity) (path : String)
    (handler : Except AuthError Unit) :
    (u.isAdmin = true → ensureAdminOrCurrent (some u) path = Except.ok ()) ∧
    (u.username = path → ensureAdminOrCurrent (some u) path = Except.ok ()) ∧
    (u.isAdmin = false → u.username ≠ path →
      ensureAdminOrCurrent (some u) path = Except.error AuthError.unauthorized) ∧
    (ensureAdminOrCurrent none path = Except.error AuthError.unauthorized) ∧
    (guardedRoute none path handler = Except.error AuthError.unauthorized) ∧
    (u.isAdmin = false → u.username ≠ path →
      guardedRoute (some u) path handler = Except.error AuthError.unauthorized) := by
  refine ⟨?_, ?_, ?_, rfl, rfl, ?_⟩
  · intro ha; simp [ensureAdminOrCurrent, ha]
  · intro hp; simp [ensureAdminOrCurrent, hp]
  · intro ha hp; simp [ensureAdminOrCurrent, ha, hp]
  · intro ha hp; simp [guardedRoute, ensureAdminOrCurrent, ha, hp]

/-- Witness for the gate theorem at the non-admin identity u1 addressing
the resource of u2. -/
theorem adminOrCurrent_gate_witness :
    (({ username := "u1", isAdmin := false } : Identity).isAdmin = true →
      ensureAdminOrCurrent (some { username := "u1", isAdmin := false }) "u2" = Except.ok ()) ∧
    (({ username := "u1", isAdmin := false } : Identity).username = "u2" →
      ensureAdminOrCurrent (some { username := "u1", isAdmin := false }) "u2" = Except.ok ()) ∧
    (({ username := "u1", isAdmin := false } : Identity).isAdmin = false →
      ({ username := "u1", isAdmin := false } : Identity).username ≠ "u2" →
      ensureAdminOrCurrent (some { username := "u1", isAdmin := false }) "u2" =
        Except.error AuthError.unauthorized) ∧
    (ensureAdminOrCurrent none "u2" = Except.error AuthError.unauthorized) ∧
    (guardedRoute none "u2" (Except.ok ()) = Except.error AuthError.unauthorized) ∧
    (({ username := "u1", isAdmin := false } : Identity).isAdmin = false →
      ({ username := "u1", isAdmin := false } : Identity).username ≠ "u2" →
      guardedRoute (some { username := "u1", isAdmin := false }) "u2" (Except.ok ()) =
        Except.error AuthError.unauthorized) :=
  adminOrCurrent_gate { username := "u1", isAdmin := false } "u2" (Except.ok ())
